import Mathlib

/-!
Verification of the multi-provider image-search aggregation core of the
VISUAL-TEXT-ANALYSIS repository (src/app.py and src/image_utils.py).

The Python source is shallowly embedded: provider adapters become pure
functions parameterised by oracles describing the observed behaviour of the
network / external libraries (one oracle value corresponds to one concrete
run); Python dict lookups with defaults become Option fields read with getD;
Python `int // int` and `int % int` with a positive divisor coincide with
Lean's Int `/` and `%` (Euclidean = floor for positive divisors).
-/

/-! ## String helpers (Python `in`, `startswith`, slicing) -/

/-- Does the needle occur at the head of the list (`s.startswith(p)` on char lists)? -/
def matchesAt : List Char → List Char → Bool
  | [], _ => true
  | _ :: _, [] => false
  | c :: cs, d :: ds => c = d && matchesAt cs ds

/-- Does the needle occur anywhere in the haystack (Python `needle in hay`)? -/
def hasSubList (needle : List Char) : List Char → Bool
  | [] => matchesAt needle []
  | c :: rest => matchesAt needle (c :: rest) || hasSubList needle rest

/-- Python substring test `needle in hay` on strings. -/
def strContainsStr (hay needle : String) : Bool :=
  hasSubList needle.data hay.data

/-- Python slice `s[:n]` on strings (by characters). -/
def strTake (s : String) (n : Nat) : String :=
  String.mk (s.data.take n)

/-- Python `s.startswith(p)` on strings. -/
def strStartsWith (s p : String) : Bool :=
  matchesAt p.data s.data

/-! ## Data model: the normalized image record

Python represents records as dicts; keys `query`, `search_engine`, `type` and
`engine` are only present on some records, so they are Option fields here
(none = key absent). -/

/-- The unit flowing out of every provider (a Python dict in the source). -/
structure ImageRecord where
  url : String
  title : String
  source : String
  thumbnail : String
  width : Nat
  height : Nat
  author : String
  query : Option String := none
  searchEngine : Option String := none
  mediaType : Option String := none
  engine : Option String := none
deriving DecidableEq

/-! ## Budget allocator (src/app.py, process_paragraph lines 752-774)

For an integer image budget and Q = len(queries) > 0 the source computes
`images_per_query = max(1, total_images // len(queries))`,
`remainder = total_images % len(queries)`, and query i receives
`images_per_query + (1 if i < remainder else 0)`. -/

/-- images_per_query from src/app.py line 762 (integer-budget branch, Q > 0). -/
def images_per_query (totalImages : Int) (Q : Nat) : Int :=
  max 1 (totalImages / (Q : Int))

/-- remainder from src/app.py line 764. -/
def images_remainder (totalImages : Int) (Q : Nat) : Int :=
  totalImages % (Q : Int)

/-- current_count for each query position (src/app.py lines 772-774). -/
def perQueryAllocations (totalImages : Int) (Q : Nat) : List Int :=
  (List.range Q).map fun (i : Nat) =>
    if (i : Int) < images_remainder totalImages Q then
      images_per_query totalImages Q + 1
    else
      images_per_query totalImages Q

/-- Sum of the indicator-style allocation list for arbitrary threshold r. -/
lemma sum_threshold_map (d : Int) :
    ∀ (Q : Nat) (r : Int),
      (((List.range Q).map fun (i : Nat) => if (i : Int) < r then d + 1 else d)).sum
        = Q * d + max 0 (min r Q) := by
  intro Q
  induction Q with
  | zero =>
      intro r
      simp
  | succ n ih =>
      intro r
      rw [List.range_succ, List.map_append, List.sum_append, ih r]
      simp only [List.map_cons, List.map_nil, List.sum_cons, List.sum_nil]
      have hd : ((n : Int) + 1) * d = (n : Int) * d + d := by ring
      push_cast
      rw [hd]
      by_cases h : (n : Int) < r
      · simp only [if_pos h]
        generalize (n : Int) * d = X
        omega
      · simp only [if_neg h]
        generalize (n : Int) * d = X
        omega

lemma perQueryAllocations_length (totalImages : Int) (Q : Nat) :
    (perQueryAllocations totalImages Q).length = Q := by
  simp [perQueryAllocations]

lemma mem_perQueryAllocations (totalImages : Int) (Q : Nat) (a : Int)
    (ha : a ∈ perQueryAllocations totalImages Q) :
    a = images_per_query totalImages Q ∨ a = images_per_query totalImages Q + 1 := by
  simp only [perQueryAllocations, List.mem_map] at ha
  obtain ⟨i, _, rfl⟩ := ha
  by_cases h : (i : Int) < images_remainder totalImages Q <;> simp [h]

/-- C1 counterexample input: total_budget = 1, Q = 2 gives allocations [2, 1]. -/
theorem perQueryAllocations_sum_ne_budget :
    (perQueryAllocations 1 2).sum ≠ (1 : Int) := by decide

/-- C1 (amended): with Q > 0 queries, any two allocations differ by at most 1,
and whenever the integer budget is at least Q the allocations sum to exactly
the budget.  (When the budget is below Q the `max 1` floor makes every query
request at least one image, so the sum exceeds the budget.) -/
theorem perQueryAllocations_spec (totalImages : Int) (Q : Nat) (hQ : 0 < Q) :
    (∀ a ∈ perQueryAllocations totalImages Q,
       ∀ b ∈ perQueryAllocations totalImages Q, a - b ≤ 1) ∧
    ((Q : Int) ≤ totalImages → (perQueryAllocations totalImages Q).sum = totalImages) := by
  constructor
  · intro a ha b hb
    rcases mem_perQueryAllocations totalImages Q a ha with h1 | h1 <;>
      rcases mem_perQueryAllocations totalImages Q b hb with h2 | h2 <;>
        omega
  · intro hbudget
    have hQZ : (0 : Int) < (Q : Int) := by exact_mod_cast hQ
    have hdiv : (1 : Int) ≤ totalImages / (Q : Int) := by
      rw [Int.le_ediv_iff_mul_le hQZ]
      omega
    have hipq : images_per_query totalImages Q = totalImages / (Q : Int) := by
      simp [images_per_query, max_eq_right hdiv]
    have hrem0 : (0 : Int) ≤ images_remainder totalImages Q :=
      Int.emod_nonneg totalImages (by omega)
    have hremQ : images_remainder totalImages Q < (Q : Int) :=
      Int.emod_lt_of_pos totalImages hQZ
    have heuclid := Int.ediv_add_emod totalImages (Q : Int)
    rw [perQueryAllocations, hipq, sum_threshold_map]
    have hmax : max 0 (min (images_remainder totalImages Q) (Q : Int))
        = images_remainder totalImages Q := by
      unfold images_remainder at hrem0 hremQ ⊢
      omega
    rw [hmax]
    unfold images_remainder at *
    omega

/-- Witness instantiating the amended C1 at total_budget = 7, Q = 3. -/
theorem perQueryAllocations_spec_witness :
    (∀ a ∈ perQueryAllocations 7 3, ∀ b ∈ perQueryAllocations 7 3, a - b ≤ 1) ∧
    (perQueryAllocations 7 3).sum = 7 := by
  have h := perQueryAllocations_spec 7 3 (by decide)
  exact ⟨h.1, h.2 (by decide)⟩

/-! ## Resilient HTTP client (src/image_utils.py, NETWORK_CONFIG and safe_request)

One call to `session.get` is summarised by an `AttemptOutcome`: the response
status with an abstract response value, or the kind of exception raised.  A
network oracle `net : Nat -> AttemptOutcome` gives the outcome of the i-th
attempt of one safe_request call.  The embedding returns the function result
together with the number of attempts actually made. -/

/-- NETWORK_CONFIG dict from src/image_utils.py lines 22-28. -/
structure NetworkConfig where
  timeout : Nat
  maxRetries : Nat
  backoffFactor : Nat
  retryStatuses : List Nat
  delayBetweenRequests : Nat

def NETWORK_CONFIG : NetworkConfig :=
  { timeout := 30
    maxRetries := 3
    backoffFactor := 1
    retryStatuses := [429, 500, 502, 503, 504]
    delayBetweenRequests := 1 }

/-- safe_request resolves a missing timeout argument to the config default. -/
def resolveTimeout (t : Option Nat) : Nat :=
  t.getD NETWORK_CONFIG.timeout

/-- Observable outcome of one `session.get` attempt. -/
inductive AttemptOutcome (α : Type) where
  | resp (statusCode : Nat) (r : α)
  | timeout
  | connError
  | otherExc
deriving DecidableEq

/-- The retry loop of safe_request (src/image_utils.py lines 65-101) over the
remaining attempt indices.  Sleeps and log lines are dropped; the
`if attempt < max_retries: continue` in the exception handlers is equivalent
to plain `continue`, since on the last index the loop would end anyway. -/
def safe_request_go {α : Type} (net : Nat → AttemptOutcome α) :
    List Nat → Option α × Nat
  | [] => (none, 0)
  | i :: rest =>
    match net i with
    | .resp code r =>
      if code = 200 then (some r, 1)
      else if code = 429 then
        ((safe_request_go net rest).1, (safe_request_go net rest).2 + 1)
      else if code ∈ NETWORK_CONFIG.retryStatuses then
        ((safe_request_go net rest).1, (safe_request_go net rest).2 + 1)
      else
        (none, 1)
    | .timeout => ((safe_request_go net rest).1, (safe_request_go net rest).2 + 1)
    | .connError => ((safe_request_go net rest).1, (safe_request_go net rest).2 + 1)
    | .otherExc => ((safe_request_go net rest).1, (safe_request_go net rest).2 + 1)

/-- safe_request: `for attempt in range(max_retries + 1)` with final `return None`.
The pair holds the returned value and the number of attempts actually made. -/
def safe_request {α : Type} (net : Nat → AttemptOutcome α) : Option α × Nat :=
  safe_request_go net (List.range (NETWORK_CONFIG.maxRetries + 1))

/-- An attempt outcome that makes the loop continue to another attempt. -/
def attemptRetried {α : Type} : AttemptOutcome α → Bool
  | .resp code _ =>
    code ≠ 200 && (code = 429 || decide (code ∈ NETWORK_CONFIG.retryStatuses))
  | .timeout => true
  | .connError => true
  | .otherExc => true

lemma safe_request_go_attempts_le {α : Type} (net : Nat → AttemptOutcome α) :
    ∀ l : List Nat, (safe_request_go net l).2 ≤ l.length := by
  intro l
  induction l with
  | nil => simp [safe_request_go]
  | cons i rest ih =>
    cases h : net i with
    | resp code r =>
      simp only [safe_request_go, h, List.length_cons]
      by_cases h200 : code = 200
      · simp [h200]
      · by_cases h429 : code = 429
        · simp [h200, h429]
          omega
        · by_cases hr : code ∈ NETWORK_CONFIG.retryStatuses
          · simp [h200, h429, hr]
            omega
          · simp [h200, h429, hr]
    | timeout =>
      simp only [safe_request_go, h, List.length_cons]
      omega
    | connError =>
      simp only [safe_request_go, h, List.length_cons]
      omega
    | otherExc =>
      simp only [safe_request_go, h, List.length_cons]
      omega

lemma safe_request_go_none_of_all_retried {α : Type} (net : Nat → AttemptOutcome α) :
    ∀ l : List Nat, (∀ i ∈ l, attemptRetried (net i) = true) →
      (safe_request_go net l).1 = none := by
  intro l
  induction l with
  | nil =>
    intro _
    simp [safe_request_go]
  | cons i rest ih =>
    intro hall
    have hi : attemptRetried (net i) = true := hall i (by simp)
    have hrest : (safe_request_go net rest).1 = none :=
      ih (fun j hj => hall j (by simp [hj]))
    cases h : net i with
    | resp code r =>
      rw [h] at hi
      simp only [attemptRetried, Bool.and_eq_true, Bool.or_eq_true,
        decide_eq_true_eq, ne_eq] at hi
      simp only [safe_request_go, h]
      by_cases h200 : code = 200
      · exact absurd h200 hi.1
      · by_cases h429 : code = 429
        · simp [h200, h429, hrest]
        · have hr : code ∈ NETWORK_CONFIG.retryStatuses := by
            rcases hi.2 with hc | hc
            · exact absurd hc h429
            · exact hc
          simp [h200, h429, hr, hrest]
    | timeout => simp [safe_request_go, h, hrest]
    | connError => simp [safe_request_go, h, hrest]
    | otherExc => simp [safe_request_go, h, hrest]

/-- C9 counterexample: safe_request also retries after an exception that is
neither a timeout nor a connection error (the bare `except Exception` handler
continues the loop), so "retries only on 429/500/502/503/504 and
connection/timeout errors" is false: an attempt trace whose first outcome is
some other exception still reaches a second attempt. -/
theorem safe_request_retries_on_other_exception :
    ¬ (∀ net : Nat → AttemptOutcome Unit,
        net 0 = AttemptOutcome.otherExc → (safe_request net).2 ≤ 1) := by
  intro hclaim
  have h := hclaim
    (fun n => if n = 0 then AttemptOutcome.otherExc else AttemptOutcome.resp 200 ())
    rfl
  simp [safe_request, safe_request_go, NETWORK_CONFIG, List.range_succ] at h

/-- C9 (amended): safe_request makes at most NETWORK_CONFIG.max_retries = 3
retry attempts beyond the first; it returns None (never an exception) when
every attempt's outcome is retryable, where retryable means HTTP status in
{429, 500, 502, 503, 504} or ANY raised exception (connection/timeout errors
included — the bare `except Exception` branch also continues the loop); a 200
response is returned from the attempt that got it; any other non-200,
non-retryable status returns None immediately without further attempts; and a
missing timeout argument defaults to 30. -/
theorem safe_request_spec {α : Type} (net : Nat → AttemptOutcome α) :
    (NETWORK_CONFIG.maxRetries = 3 ∧ resolveTimeout none = 30) ∧
    (safe_request net).2 ≤ NETWORK_CONFIG.maxRetries + 1 ∧
    ((∀ i, attemptRetried (net i) = true) → (safe_request net).1 = none) ∧
    (∀ r : α, net 0 = AttemptOutcome.resp 200 r → safe_request net = (some r, 1)) ∧
    (∀ (code : Nat) (r : α), net 0 = AttemptOutcome.resp code r →
      code ≠ 200 → code ≠ 429 → code ∉ NETWORK_CONFIG.retryStatuses →
      safe_request net = (none, 1)) ∧
    (net 0 = AttemptOutcome.otherExc → 2 ≤ (safe_request net).2) := by
  refine ⟨⟨rfl, rfl⟩, ?_, ?_, ?_, ?_, ?_⟩
  · have h := safe_request_go_attempts_le net (List.range (NETWORK_CONFIG.maxRetries + 1))
    simpa [safe_request] using h
  · intro hall
    exact safe_request_go_none_of_all_retried net _ (fun i _ => hall i)
  · intro r h0
    simp [safe_request, NETWORK_CONFIG, List.range_succ, safe_request_go, h0]
  · intro code r h0 h200 h429 hr
    have hrange : List.range (NETWORK_CONFIG.maxRetries + 1) = [0, 1, 2, 3] := rfl
    rw [safe_request, hrange]
    simp only [safe_request_go, h0]
    rw [if_neg h200, if_neg h429, if_neg hr]
  · intro h0
    have hpos : 1 ≤ (safe_request_go net [1, 2, 3]).2 := by
      cases h : net 1 with
      | resp code r =>
        simp only [safe_request_go, h]
        by_cases h200 : code = 200
        · simp [h200]
        · by_cases h429 : code = 429
          · simp [h200, h429]
          · by_cases hr : code ∈ NETWORK_CONFIG.retryStatuses
            · simp [h200, h429, hr]
            · simp [h200, h429, hr]
      | timeout => simp [safe_request_go, h]
      | connError => simp [safe_request_go, h]
      | otherExc => simp [safe_request_go, h]
    have hrange : List.range (NETWORK_CONFIG.maxRetries + 1) = 0 :: [1, 2, 3] := rfl
    rw [safe_request, hrange]
    have h2 : (safe_request_go net (0 :: [1, 2, 3])).2
        = (safe_request_go net [1, 2, 3]).2 + 1 := by
      simp [safe_request_go, h0]
    omega

/-- Witness instantiating the amended C9: a trace of timeouts exhausts to None,
and a 404 on the first attempt returns None after exactly one attempt. -/
theorem safe_request_spec_witness :
    (safe_request (fun _ => AttemptOutcome.timeout : Nat → AttemptOutcome Unit)).1
      = none ∧
    safe_request (fun _ => AttemptOutcome.resp 404 () : Nat → AttemptOutcome Unit)
      = (none, 1) := by
  constructor
  · exact (safe_request_spec (fun _ => AttemptOutcome.timeout)).2.2.1 (fun i => rfl)
  · exact (safe_request_spec (fun _ => AttemptOutcome.resp 404 ())).2.2.2.2.1 404 ()
      rfl (by decide) (by decide) (by decide)

/-! ## Aggregator (src/image_utils.py, search_images lines 103-126)

In multi-provider mode the source computes
`results_per_engine = max(1, max_results // len(search_engine))`, then runs
`for engine in search_engine: try: ...extend(search_images_single(...))
except: continue`, and returns `all_results[:max_results]`.  The per-provider
call is abstracted as `adapter : String -> Nat -> Except Unit (List
ImageRecord)`: an `.error` value is an adapter call that raises. -/

/-- Records contributed by one provider call inside the try/except of the
multi-provider loop: a raising adapter contributes nothing. -/
def exceptRecords : Except Unit (List ImageRecord) → List ImageRecord
  | .ok rs => rs
  | .error _ => []

/-- Multi-provider branch of search_images (src/image_utils.py lines 109-123).
Requires a non-empty provider list: Python raises ZeroDivisionError on an
empty one. -/
def search_images_multi (adapter : String → Nat → Except Unit (List ImageRecord))
    (engines : List String) (max_results : Nat) : List ImageRecord :=
  (engines.foldl
      (fun acc engine =>
        acc ++ exceptRecords (adapter engine (max 1 (max_results / engines.length))))
      []).take max_results

lemma foldl_append_exceptRecords
    (adapter : String → Nat → Except Unit (List ImageRecord)) (per : Nat) :
    ∀ (engines : List String) (acc : List ImageRecord),
      engines.foldl (fun a e => a ++ exceptRecords (adapter e per)) acc
        = acc ++ (engines.map fun e => exceptRecords (adapter e per)).flatten := by
  intro engines
  induction engines with
  | nil => simp
  | cons e rest ih =>
    intro acc
    simp only [List.foldl_cons, List.map_cons, List.flatten_cons]
    rw [ih, List.append_assoc]

/-- C3 (confirmed): in multi-provider mode each provider adapter is asked for
max(1, max_results // N) results, providers run in the caller-given list
order, their result lists are concatenated in that order, and the
concatenation is truncated so the returned list has length at most
max_results. -/
theorem search_images_multi_spec
    (adapter : String → Nat → Except Unit (List ImageRecord))
    (engines : List String) (max_results : Nat) (hne : engines ≠ []) :
    search_images_multi adapter engines max_results
      = ((engines.map fun e =>
            exceptRecords (adapter e (max 1 (max_results / engines.length)))).flatten
          ).take max_results ∧
    (search_images_multi adapter engines max_results).length ≤ max_results := by
  have hfold := foldl_append_exceptRecords adapter
    (max 1 (max_results / engines.length)) engines []
  constructor
  · rw [search_images_multi, hfold]
    simp
  · rw [search_images_multi]
    simp [List.length_take]

/-- Witness instantiating C3 with providers [duckduckgo, pixabay] and
max_results = 5: each adapter is asked for max(1, 5 // 2) = 2 and the result
has length at most 5. -/
theorem search_images_multi_spec_witness :
    search_images_multi (fun _ _ => Except.ok []) ["duckduckgo", "pixabay"] 5 = [] ∧
    (search_images_multi (fun _ _ => Except.ok []) ["duckduckgo", "pixabay"] 5).length
      ≤ 5 := by
  have h := search_images_multi_spec (fun _ _ => Except.ok [])
    ["duckduckgo", "pixabay"] 5 (by decide)
  exact ⟨by rw [h.1]; rfl, h.2⟩

/-- C4 (confirmed): if one provider's adapter raises inside the multi-provider
loop, the exception is caught by the per-provider try/except, that provider
contributes zero records, and the aggregate still returns the remaining
providers' results (truncated as usual) without propagating the exception. -/
theorem search_images_multi_isolates_failure
    (adapter : String → Nat → Except Unit (List ImageRecord))
    (before after : List String) (bad : String) (max_results : Nat)
    (hbad : adapter bad
        (max 1 (max_results / (before ++ bad :: after).length)) = .error ()) :
    search_images_multi adapter (before ++ bad :: after) max_results
      = (((before ++ after).map fun e =>
            exceptRecords
              (adapter e (max 1 (max_results / (before ++ bad :: after).length)))).flatten
          ).take max_results := by
  have hne : before ++ bad :: after ≠ [] := by
    intro h
    exact absurd (List.append_eq_nil.mp h).2 (by simp)
  have h := (search_images_multi_spec adapter (before ++ bad :: after) max_results hne).1
  rw [h]
  congr 1
  rw [List.map_append, List.map_append, List.map_cons, List.flatten_append,
    List.flatten_append, List.flatten_cons, hbad]
  simp [exceptRecords]

/-- Concrete record for the C4 witness scenario (provider A, first record). -/
def c4Record1 : ImageRecord :=
  { url := "http://a.example/1.jpg", title := "a1", source := "A",
    thumbnail := "http://a.example/1t.jpg", width := 0, height := 0, author := "A" }

/-- Concrete record for the C4 witness scenario (provider A, second record). -/
def c4Record2 : ImageRecord :=
  { url := "http://a.example/2.jpg", title := "a2", source := "A",
    thumbnail := "http://a.example/2t.jpg", width := 0, height := 0, author := "A" }

/-- Stub adapter for the C4 witness: provider A returns two records, every
other provider raises. -/
def c4Adapter : String → Nat → Except Unit (List ImageRecord) :=
  fun engine _ => if engine = "A" then .ok [c4Record1, c4Record2] else .error ()

/-- Witness instantiating C4 on the spec scenario: A yields 2 records, B
raises; the aggregate returns exactly A's 2 records. -/
theorem search_images_multi_isolates_failure_witness :
    search_images_multi c4Adapter ["A", "B"] 5 = [c4Record1, c4Record2] := by
  have h := search_images_multi_isolates_failure c4Adapter ["A"] [] "B" 5 (by rfl)
  rw [show (["A"] ++ "B" :: [] : List String) = ["A", "B"] from rfl] at h
  rw [h]
  rfl

/-! ## DuckDuckGo adapter (src/image_utils.py, search_images_duckduckgo 146-213)

The behaviour of the third-party DDGS library in one adapter call is an
oracle: the items the first `ddgs.images` call yields (with, optionally, the
message of an exception raised after those yields), and the items / failure
of the second call made after a detected rate limit. -/

/-- One raw item yielded by the DDGS image generator (`r.get(key, default)`). -/
structure DDGItem where
  image : Option String
  title : Option String
  source : Option String
  thumbnail : Option String
  width : Option Nat
  height : Option Nat
deriving DecidableEq

/-- Normalization of one DDGS item (src/image_utils.py lines 173-181). -/
def normalizeDDGItem (it : DDGItem) : ImageRecord :=
  { url := it.image.getD ""
    title := it.title.getD ""
    source := it.source.getD ""
    thumbnail := it.thumbnail.getD ""
    width := it.width.getD 0
    height := it.height.getD 0
    author := "DuckDuckGo" }

/-- Observed behaviour of the DDGS library across the two possible calls of
one search_images_duckduckgo invocation. -/
structure DDGBehavior where
  firstItems : List DDGItem
  firstErr : Option String
  retryItems : List DDGItem
  retryErr : Option String

/-- search_images_duckduckgo: accumulates the first call's yields; if that
call raised and the message contains "202" and "Ratelimit", retries once and
keeps appending to the same accumulator (no reset, no truncation); any other
error — or an error in the retry itself — is caught by the outer handler,
which returns []. -/
def search_images_duckduckgo (b : DDGBehavior) (_query : String)
    (_max_results : Nat) : List ImageRecord :=
  let first := b.firstItems.map normalizeDDGItem
  match b.firstErr with
  | none => first
  | some msg =>
    if strContainsStr msg "202" && strContainsStr msg "Ratelimit" then
      match b.retryErr with
      | none => first ++ b.retryItems.map normalizeDDGItem
      | some _ => []
    else []

/-- Concrete DDGS item used in the C10 scenario (appears in both batches). -/
def c10ItemA : DDGItem :=
  { image := some "http://img.example/a.jpg", title := some "a",
    source := some "s", thumbnail := some "http://img.example/a_t.jpg",
    width := some 300, height := some 200 }

/-- Second-batch-only DDGS item for the C10 scenario. -/
def c10ItemB : DDGItem :=
  { image := some "http://img.example/b.jpg", title := some "b",
    source := some "s", thumbnail := some "http://img.example/b_t.jpg",
    width := some 300, height := some 200 }

/-- C10 behaviour: the first call yields one record then raises a rate-limit
error; the retried call yields two records, the first being a repeat. -/
def c10Behavior : DDGBehavior :=
  { firstItems := [c10ItemA]
    firstErr := some "202 Ratelimit"
    retryItems := [c10ItemA, c10ItemB]
    retryErr := none }

/-- C10 (confirmed): when the first DDGS call yields k >= 1 records and then
raises a rate-limit error and the retried call yields further records, the
adapter returns the concatenation of both batches — not reset, not truncated
to max_results — so the returned list exceeds max_results and contains the
same record twice. -/
theorem search_images_duckduckgo_rate_limit_concat :
    search_images_duckduckgo c10Behavior "cats" 2
        = [normalizeDDGItem c10ItemA, normalizeDDGItem c10ItemA,
           normalizeDDGItem c10ItemB] ∧
    2 < (search_images_duckduckgo c10Behavior "cats" 2).length ∧
    (search_images_duckduckgo c10Behavior "cats" 2).get? 0
      = (search_images_duckduckgo c10Behavior "cats" 2).get? 1 := by
  refine ⟨?_, ?_, ?_⟩ <;> decide

/-! ## Pixabay adapter (src/image_utils.py, search_images_pixabay 215-253)

safe_request only ever returns a 200 response, so the observed outcome of one
adapter call is `none` (request failed / JSON error, caught by the outer
handler) or the decoded `hits` array of the 200 response. -/

/-- One element of the Pixabay `hits` array, read with `hit.get(key, default)`. -/
structure PixabayHit where
  webformatURL : Option String
  tags : Option String
  previewURL : Option String
  webformatWidth : Option Nat
  webformatHeight : Option Nat
  user : Option String
deriving DecidableEq

/-- Normalization of one Pixabay hit (src/image_utils.py lines 238-246). -/
def normalizePixabayHit (h : PixabayHit) : ImageRecord :=
  { url := h.webformatURL.getD ""
    title := h.tags.getD ""
    source := "Pixabay"
    thumbnail := h.previewURL.getD ""
    width := h.webformatWidth.getD 0
    height := h.webformatHeight.getD 0
    author := h.user.getD "Pixabay" }

/-- search_images_pixabay: `for hit in data.get('hits', [])[:max_results]`. -/
def search_images_pixabay (resp : Option (List PixabayHit)) (_query : String)
    (max_results : Nat) : List ImageRecord :=
  match resp with
  | none => []
  | some hits => (hits.take max_results).map normalizePixabayHit

/-! ## SearXNG adapter (src/image_utils.py, search_images_searxng 339-491)

The HTML page of one instance is abstracted to the list of its `<img>` tags;
one `requests.get` to an instance is summarised by a `SearxFetch` outcome
(a status code with the parsed img tags of the body, or a raised exception —
timeout, connection error and any other exception are all handled alike by
`continue`). -/

/-- An `<img>` tag as the adapter reads it: `src`, `data-src`, `alt`, and the
string rendering of the parent tag's class list (none when the tag has no
parent). -/
structure ImgTag where
  src : Option String
  dataSrc : Option String
  alt : Option String
  parentClass : Option String
deriving DecidableEq

/-- Outcome of one `requests.get` against one instance. -/
inductive SearxFetch where
  | resp (status : Nat) (imgs : List ImgTag)
  | exc

/-- urls_to_check (src/image_utils.py lines 403-407): src then data-src, each
only when it starts with "http". -/
def urlsToCheck (img : ImgTag) : List String :=
  (match img.src with
   | some s => if strStartsWith s "http" then [s] else []
   | none => []) ++
  (match img.dataSrc with
   | some s => if strStartsWith s "http" then [s] else []
   | none => [])

/-- Python `url.split('?')[0]`. -/
def urlBase (u : String) : String :=
  String.mk (u.data.takeWhile (fun c => c ≠ '?'))

/-- First candidate URL that is not yet processed and whose base is not a
substring of an already collected record's url (lines 410-414). -/
def pickImgSrc (img : ImgTag) (results : List ImageRecord)
    (processed : List String) : Option String :=
  (urlsToCheck img).find? fun u =>
    !processed.contains u && !results.any fun r => strContainsStr r.url (urlBase u)

/-- skip_patterns from line 419. -/
def searxSkipPatterns : List String :=
  ["/static/", "favicon", "logo", "/css/", "/js/", "searx"]

/-- skip_domains from line 424. -/
def searxSkipDomains : List String :=
  ["facebook.com", "instagram.com", "twitter.com", "tiktok.com"]

/-- Engine detection from the parent tag's class string (lines 433-442). -/
def searxEngineOf (parentClass : Option String) : String :=
  match parentClass with
  | none => "unknown"
  | some s =>
    let info := s.toLower
    if strContainsStr info "bing" then "bing"
    else if strContainsStr info "google" then "google"
    else if strContainsStr info "yandex" then "yandex"
    else "unknown"

/-- Title of a SearXNG result (line 430): `img.get('alt', '') or default`. -/
def searxTitleOf (img : ImgTag) (query : String) : String :=
  match img.alt with
  | some a => if a = "" then "SearXNG result for " ++ query else a
  | none => "SearXNG result for " ++ query

/-- One collected SearXNG record (lines 444-453). -/
def mkSearxRecord (query : String) (img : ImgTag) (u : String) : ImageRecord :=
  { url := u
    title := strTake (searxTitleOf img query) 100
    source := "SearXNG (" ++ searxEngineOf img.parentClass ++ ")"
    thumbnail := u
    width := 0
    height := 0
    author := "SearXNG via " ++ searxEngineOf img.parentClass
    engine := some (searxEngineOf img.parentClass) }

/-- The img-tag collection loop of one 200 page (lines 400-459): the length
check `if len(results) >= max_results: break` runs only after appending. -/
def searxng_collect (query : String) (max_results : Nat) :
    List ImgTag → List ImageRecord → List String → List ImageRecord
  | [], results, _ => results
  | img :: rest, results, processed =>
    match pickImgSrc img results processed with
    | none => searxng_collect query max_results rest results processed
    | some u =>
      if strStartsWith u "http" && !processed.contains u then
        if searxSkipPatterns.any (fun p => strContainsStr u p) then
          searxng_collect query max_results rest results processed
        else if searxSkipDomains.any (fun d => strContainsStr u d) then
          searxng_collect query max_results rest results processed
        else
          let results' := results ++ [mkSearxRecord query img u]
          if max_results ≤ results'.length then results'
          else searxng_collect query max_results rest results' (processed ++ [u])
      else
        searxng_collect query max_results rest results processed

/-- The static public fallback instances (lines 355-360). -/
def searxngFallbackInstances : List String :=
  ["https://searx.be", "https://searx.dresden.network",
   "https://search.sapti.me", "https://searx.tiekoetter.com"]

/-- Candidate instance list (lines 347-361): the caller URL first when truthy,
the public fallbacks appended only when the caller URL is not the localhost
default. -/
def searxngCandidates (searxng_url : String) : List String :=
  (if searxng_url ≠ "" then [searxng_url] else []) ++
  (if searxng_url ≠ "http://localhost:8080" then searxngFallbackInstances else [])

/-- The per-instance attempt (lines 363-485): only a 200 page whose collection
is non-empty yields a result; 403, any other status and any exception all
skip to the next instance. -/
def searxngTryInstance (fetch : String → SearxFetch) (query : String)
    (max_results : Nat) (base : String) : Option (List ImageRecord) :=
  match fetch base with
  | .resp status imgs =>
    if status = 200 then
      let rs := searxng_collect query max_results imgs [] []
      if rs.isEmpty then none else some rs
    else none
  | .exc => none

/-- The instance loop of search_images_searxng: first instance yielding at
least one record wins; if none does, the adapter returns [] (line 491). -/
def searxngIter (fetch : String → SearxFetch) (query : String)
    (max_results : Nat) : List String → List ImageRecord
  | [] => []
  | base :: rest =>
    match searxngTryInstance fetch query max_results base with
    | some rs => rs
    | none => searxngIter fetch query max_results rest

/-- search_images_searxng (lines 339-491). -/
def search_images_searxng (fetch : String → SearxFetch) (query : String)
    (max_results : Nat) (searxng_url : String) : List ImageRecord :=
  searxngIter fetch query max_results (searxngCandidates searxng_url)

lemma searxng_collect_length_zero (query : String) :
    ∀ (imgs : List ImgTag) (results : List ImageRecord) (processed : List String),
      (searxng_collect query 0 imgs results processed).length ≤ results.length + 1 := by
  intro imgs
  induction imgs with
  | nil =>
    intro results processed
    simp [searxng_collect]
  | cons img rest ih =>
    intro results processed
    simp only [searxng_collect]
    cases hpick : pickImgSrc img results processed with
    | none => exact ih results processed
    | some u =>
      by_cases hok : strStartsWith u "http" && !processed.contains u
      · simp only [hok, if_true]
        by_cases hpat : searxSkipPatterns.any (fun p => strContainsStr u p)
        · simp only [hpat, if_true]
          exact ih results processed
        · simp only [hpat, if_false]
          by_cases hdom : searxSkipDomains.any (fun d => strContainsStr u d)
          · simp only [hdom, if_true]
            exact ih results processed
          · simp only [hdom, if_false]
            simp
      · simp only [hok, if_false]
        exact ih results processed

lemma searxngIter_eq_findSome (fetch : String → SearxFetch) (query : String)
    (max_results : Nat) :
    ∀ bases : List String,
      searxngIter fetch query max_results bases
        = (bases.findSome? (searxngTryInstance fetch query max_results)).getD [] := by
  intro bases
  induction bases with
  | nil => simp [searxngIter]
  | cons base rest ih =>
    simp only [searxngIter, List.findSome?_cons]
    cases h : searxngTryInstance fetch query max_results base with
    | none => simpa using ih
    | some rs => simp

/-- C7 counterexample: with the default caller URL http://localhost:8080 the
candidate list is just the caller URL — the static public fallback list is
NOT appended, contradicting "caller-supplied URL first followed by a static
fallback list of public instances" for every caller URL. -/
theorem searxngCandidates_localhost_no_fallback :
    searxngCandidates "http://localhost:8080"
      ≠ "http://localhost:8080" :: searxngFallbackInstances := by
  decide

/-- C7 (amended): the metasearch adapter iterates candidate instances — the
caller URL first (when non-empty), followed by the static public fallback
list only when the caller URL differs from http://localhost:8080 — trying
each at most once in order, returns the collected records of the first
instance whose 200 page yields at least one record, skips instances that
error or return 403 (or any other non-200 status), and returns [] without
raising and without consulting any other provider when no instance yields
results. -/
theorem search_images_searxng_spec (fetch : String → SearxFetch)
    (query : String) (max_results : Nat) (searxng_url : String) :
    (search_images_searxng fetch query max_results searxng_url
       = ((searxngCandidates searxng_url).findSome?
            (searxngTryInstance fetch query max_results)).getD []) ∧
    (searxng_url ≠ "" → searxng_url ≠ "http://localhost:8080" →
       searxngCandidates searxng_url = searxng_url :: searxngFallbackInstances) ∧
    searxngCandidates "http://localhost:8080" = ["http://localhost:8080"] ∧
    ((∀ b ∈ searxngCandidates searxng_url,
        searxngTryInstance fetch query max_results b = none) →
       search_images_searxng fetch query max_results searxng_url = []) := by
  refine ⟨?_, ?_, by decide, ?_⟩
  · exact searxngIter_eq_findSome fetch query max_results (searxngCandidates searxng_url)
  · intro h1 h2
    simp [searxngCandidates, h1, h2]
  · intro hall
    rw [search_images_searxng,
      searxngIter_eq_findSome fetch query max_results (searxngCandidates searxng_url),
      List.findSome?_eq_none_iff.mpr hall]
    rfl

/-- Witness instantiating the amended C7: a non-localhost caller URL is
followed by the fallback instances, and when every instance errors the
adapter returns []. -/
theorem search_images_searxng_spec_witness :
    searxngCandidates "https://my.searx.example"
      = "https://my.searx.example" :: searxngFallbackInstances ∧
    search_images_searxng (fun _ => SearxFetch.exc) "cats" 4 "https://my.searx.example"
      = [] := by
  have h := search_images_searxng_spec (fun _ => SearxFetch.exc) "cats" 4
    "https://my.searx.example"
  exact ⟨h.2.1 (by decide) (by decide),
    h.2.2.2 (fun b _ => rfl)⟩

/-- Img tag for the C5 counterexample page. -/
def c5Img : ImgTag :=
  { src := some "http://images.example/cat.jpg", dataSrc := none,
    alt := some "a cat", parentClass := none }

/-- Fetch oracle for the C5 counterexample: the (single, localhost) instance
returns a 200 page containing one collectable img tag. -/
def c5Fetch : String → SearxFetch :=
  fun _ => SearxFetch.resp 200 [c5Img]

/-- C5 counterexample: the SearXNG adapter called with max_results = 0 on a
page with one collectable image returns one record, not the empty list — its
stop check `len(results) >= max_results` runs only after appending. -/
theorem search_images_searxng_zero_not_empty :
    search_images_searxng c5Fetch "cat" 0 "http://localhost:8080"
      = [mkSearxRecord "cat" c5Img "http://images.example/cat.jpg"] ∧
    search_images_searxng c5Fetch "cat" 0 "http://localhost:8080" ≠ [] := by
  constructor <;> decide

/-- C5 (amended): with max_results = 0 the Pixabay adapter returns the empty
list (its hits slice `[:0]` is empty), but the SearXNG adapter only
guarantees at most one record, because it appends a record before checking
the cap. -/
theorem adapters_zero_max_results :
    (∀ (resp : Option (List PixabayHit)) (q : String),
       search_images_pixabay resp q 0 = []) ∧
    (∀ (fetch : String → SearxFetch) (q url : String),
       (search_images_searxng fetch q 0 url).length ≤ 1) := by
  constructor
  · intro resp q
    cases resp <;> simp [search_images_pixabay]
  · intro fetch q url
    rw [search_images_searxng]
    generalize searxngCandidates url = bases
    induction bases with
    | nil => simp [searxngIter]
    | cons base rest ih =>
      simp only [searxngIter]
      cases h : searxngTryInstance fetch q 0 base with
      | none => exact ih
      | some rs =>
        simp only []
        rw [searxngTryInstance] at h
        cases hf : fetch base with
        | resp status imgs =>
          rw [hf] at h
          dsimp only [] at h
          by_cases h200 : status = 200
          · rw [if_pos h200] at h
            by_cases he : (searxng_collect q 0 imgs [] []).isEmpty
            · simp only [he, if_true] at h
              exact absurd h (by simp)
            · rw [if_neg he] at h
              injection h with h2
              have hlen := searxng_collect_length_zero q imgs [] []
              simp only [List.length_nil] at hlen
              subst h2
              omega
          · rw [if_neg h200] at h
            exact absurd h (by simp)
        | exc =>
          rw [hf] at h
          exact absurd h (by simp)

/-! ## Tenor adapter (src/image_utils.py, search_images_tenor 628-852)

Three tiers: API v2, alternate API v1 endpoint, HTML scrape.  The JSON of a
succeeded API call is abstracted to its parsed `results` items (none = non-200
response, raised exception, or missing `results` key — all of which fall
through to the next tier); the HTML scrape tier is abstracted to the records
it collects. -/

/-- One well-formed entry of an item's `media_formats` dict: a dict holding a
`url` and a `dims` pair (missing dims read as [0, 0]). -/
structure TenorFormat where
  url : String
  dims : Nat × Nat
deriving DecidableEq

/-- One item of a Tenor API `results` array.  `formats name` is the
well-formed media_formats entry under that name (none = key absent or entry
malformed, which the source skips identically). -/
structure TenorItem where
  formats : String → Option TenorFormat
  contentDescription : Option String
  itemTitle : Option String

/-- Format preference order of the API v2 tier (line 659). -/
def tenorOrderV2 : List String := ["gif", "webp", "mp4"]

/-- Format preference order of the alternate API tier (line 699): tinygif is
accepted here only. -/
def tenorOrderV1 : List String := ["gif", "webp", "mp4", "tinygif"]

/-- First format of the preference order available on an item. -/
def firstFormat (mf : String → Option TenorFormat) : List String →
    Option (String × TenorFormat)
  | [] => none
  | f :: rest =>
    match mf f with
    | some fd => some (f, fd)
    | none => firstFormat mf rest

/-- Records built by one API tier from its `results[:max_results]` items:
items with no available format contribute nothing (no append happens). -/
def tenorTierRecords (query : String) (order : List String)
    (useContentDescription : Bool) (max_results : Nat)
    (items : List TenorItem) : List ImageRecord :=
  (items.take max_results).filterMap fun it =>
    match firstFormat it.formats order with
    | none => none
    | some (fname, fd) =>
      some
        { url := fd.url
          title := (if useContentDescription then it.contentDescription
                    else it.itemTitle).getD ("Tenor " ++ fname ++ " for " ++ query)
          source := "Tenor"
          thumbnail := fd.url
          width := fd.dims.1
          height := fd.dims.2
          author := "Tenor"
          mediaType := some fname }

/-- Observed behaviour of the three Tenor tiers in one adapter call. -/
structure TenorEnv where
  apiV2 : Option (List TenorItem)
  apiV1 : Option (List TenorItem)
  htmlScrape : List ImageRecord

/-- Records of the API v2 tier (lines 637-677). -/
def tenorTier1 (t : TenorEnv) (query : String) (max_results : Nat) :
    List ImageRecord :=
  match t.apiV2 with
  | some items => tenorTierRecords query tenorOrderV2 true max_results items
  | none => []

/-- Records of the alternate API tier (lines 683-717).  When this tier runs,
the shared accumulator is still empty: tier 1 returned whenever it was
non-empty. -/
def tenorTier2 (t : TenorEnv) (query : String) (max_results : Nat) :
    List ImageRecord :=
  match t.apiV1 with
  | some items => tenorTierRecords query tenorOrderV1 false max_results items
  | none => []

/-- search_images_tenor: each tier short-circuits as soon as it produced at
least one record (`if results: return results[:max_results]`); if all three
tiers fail the adapter returns [] (line 852). -/
def search_images_tenor (t : TenorEnv) (query : String) (max_results : Nat) :
    List ImageRecord :=
  let r1 := tenorTier1 t query max_results
  if r1 = [] then
    let r2 := tenorTier2 t query max_results
    if r2 = [] then
      if t.htmlScrape = [] then [] else t.htmlScrape.take max_results
    else r2.take max_results
  else r1.take max_results

/-- C8 (confirmed): the GIF adapter tries its three tiers independently in
order and returns with the first tier producing at least one record; within a
media item the chosen URL is that of the first available format in the order
gif, webp, mp4, with tinygif accepted only in the second tier's order. -/
theorem search_images_tenor_spec (t : TenorEnv) (query : String)
    (max_results : Nat) :
    (tenorTier1 t query max_results ≠ [] →
       search_images_tenor t query max_results
         = (tenorTier1 t query max_results).take max_results) ∧
    (tenorTier1 t query max_results = [] → tenorTier2 t query max_results ≠ [] →
       search_images_tenor t query max_results
         = (tenorTier2 t query max_results).take max_results) ∧
    (tenorTier1 t query max_results = [] → tenorTier2 t query max_results = [] →
       search_images_tenor t query max_results = t.htmlScrape.take max_results) ∧
    (∀ (mf : String → Option TenorFormat) (f : String) (fd : TenorFormat),
       firstFormat mf tenorOrderV2 = some (f, fd) →
       mf f = some fd ∧
         (f = "gif" ∨ (f = "webp" ∧ mf "gif" = none) ∨
          (f = "mp4" ∧ mf "gif" = none ∧ mf "webp" = none))) ∧
    ("tinygif" ∈ tenorOrderV1 ∧ "tinygif" ∉ tenorOrderV2) := by
  refine ⟨?_, ?_, ?_, ?_, by decide, by decide⟩
  · intro h1
    simp [search_images_tenor, h1]
  · intro h1 h2
    simp [search_images_tenor, h1, h2]
  · intro h1 h2
    rcases heq : t.htmlScrape with _ | ⟨r, rest⟩
    · simp [search_images_tenor, h1, h2, heq]
    · simp [search_images_tenor, h1, h2, heq]
  · intro mf f fd hfirst
    simp only [tenorOrderV2, firstFormat] at hfirst
    cases hg : mf "gif" with
    | some fdg =>
      rw [hg] at hfirst
      injection hfirst with h
      injection h with h1 h2
      subst h1
      subst h2
      exact ⟨hg, Or.inl rfl⟩
    | none =>
      rw [hg] at hfirst
      cases hw : mf "webp" with
      | some fdw =>
        rw [hw] at hfirst
        injection hfirst with h
        injection h with h1 h2
        subst h1
        subst h2
        exact ⟨hw, Or.inr (Or.inl ⟨rfl, rfl⟩)⟩
      | none =>
        rw [hw] at hfirst
        cases hm : mf "mp4" with
        | some fdm =>
          rw [hm] at hfirst
          injection hfirst with h
          injection h with h1 h2
          subst h1
          subst h2
          exact ⟨hm, Or.inr (Or.inr ⟨rfl, rfl, rfl⟩)⟩
        | none =>
          rw [hm] at hfirst
          exact absurd hfirst (by simp)

/-- Tenor item for the C8 witness: only a gif format is available. -/
def c8Item : TenorItem :=
  { formats := fun s =>
      if s = "gif" then some { url := "https://media.tenor.example/x.gif", dims := (100, 80) }
      else none
    contentDescription := some "a cat gif"
    itemTitle := none }

/-- Tenor tier behaviour for the C8 witness: tier 1 succeeds with one item. -/
def c8Env : TenorEnv :=
  { apiV2 := some [c8Item], apiV1 := none, htmlScrape := [] }

/-- Witness instantiating C8: tier 1 yields one gif record and the adapter
returns it immediately. -/
theorem search_images_tenor_spec_witness :
    search_images_tenor c8Env "cats" 2
      = [{ url := "https://media.tenor.example/x.gif", title := "a cat gif",
           source := "Tenor", thumbnail := "https://media.tenor.example/x.gif",
           width := 100, height := 80, author := "Tenor",
           mediaType := some "gif" }] := by
  have h := (search_images_tenor_spec c8Env "cats" 2).1 (by decide)
  rw [h]
  decide

/-! ## Provider dispatch and the per-query aggregate step

search_images (src/image_utils.py 103-126) dispatches a single engine name to
its adapter (default duckduckgo); process_paragraph (src/app.py 795-822) then
stamps `query` and `search_engine` onto every returned record.  The Pinterest
adapter is a headless-browser scrape abstracted as an oracle for the record
list it produces (it catches its own failures and returns []). -/

/-- Oracles for the external surfaces reachable in one adapter call. -/
structure Env where
  ddg : DDGBehavior
  pixabayResp : Option (List PixabayHit)
  pinterest : String → Nat → List ImageRecord
  searxngFetch : String → SearxFetch
  tenor : TenorEnv

/-- search_images_single (src/image_utils.py 128-144): name dispatch with
DuckDuckGo as the default branch. -/
def search_images_single (env : Env) (query : String) (max_results : Nat)
    (search_engine : String) (searxng_url : String) : List ImageRecord :=
  if search_engine = "duckduckgo" then
    search_images_duckduckgo env.ddg query max_results
  else if search_engine = "pixabay" then
    search_images_pixabay env.pixabayResp query max_results
  else if search_engine = "pinterest" then
    env.pinterest query max_results
  else if search_engine = "searxng" then
    search_images_searxng env.searxngFetch query max_results searxng_url
  else if search_engine = "tenor" then
    search_images_tenor env.tenor query max_results
  else
    search_images_duckduckgo env.ddg query max_results

/-- search_images (src/image_utils.py 103-126): a list of engines runs the
multi-provider loop (each engine through search_images_single, exceptions
caught per engine), a single engine delegates directly. -/
def search_images (env : Env) (query : String) (max_results : Nat)
    (search_engine : String ⊕ List String) (searxng_url : String) :
    List ImageRecord :=
  match search_engine with
  | .inr engines =>
    search_images_multi
      (fun e n => Except.ok (search_images_single env query n e searxng_url))
      engines max_results
  | .inl engine => search_images_single env query max_results engine searxng_url

/-- The metadata stamping loop of process_paragraph (src/app.py 802-805 and
817-820): `img["query"] = query; img["search_engine"] = engine`. -/
def stampRecords (query engine : String) (recs : List ImageRecord) :
    List ImageRecord :=
  recs.map fun r => { r with query := some query, searchEngine := some engine }

/-- The per-query, per-engine aggregate step of process_paragraph: one
search_images call on a single engine followed by the stamping loop. -/
def processQueryImages (env : Env) (query : String) (max_results : Nat)
    (engine : String) (searxng_url : String) : List ImageRecord :=
  stampRecords query engine
    (search_images env query max_results (Sum.inl engine) searxng_url)

/-- C2 (amended): every record produced by the per-query aggregate step
carries query = the query of the call and search_engine = the engine string
of the call — the stamping in process_paragraph overwrites whatever the
provider returned. -/
theorem processQueryImages_stamped (env : Env) (query : String)
    (max_results : Nat) (engine : String) (searxng_url : String)
    (r : ImageRecord)
    (hr : r ∈ processQueryImages env query max_results engine searxng_url) :
    r.query = some query ∧ r.searchEngine = some engine := by
  simp only [processQueryImages, stampRecords, List.mem_map] at hr
  obtain ⟨x, _, rfl⟩ := hr
  exact ⟨rfl, rfl⟩

/-- DDGS item lacking the `image` key, for the C2 counterexample. -/
def c2BadItem : DDGItem :=
  { image := none, title := some "no image key", source := some "s",
    thumbnail := some "http://img.example/t.jpg", width := some 10,
    height := some 10 }

/-- Environment for the C2 counterexample and witness: DuckDuckGo yields one
item without the `image` key. -/
def c2Env : Env :=
  { ddg := { firstItems := [c2BadItem], firstErr := none,
             retryItems := [], retryErr := none }
    pixabayResp := none
    pinterest := fun _ _ => []
    searxngFetch := fun _ => SearxFetch.exc
    tenor := { apiV2 := none, apiV1 := none, htmlScrape := [] } }

/-- C2 counterexample: the aggregate step returns a record whose url is the
empty string — empty-URL records are not dropped anywhere, so "every
ImageRecord ... has a non-empty url field" is false. -/
theorem processQueryImages_empty_url :
    processQueryImages c2Env "cats" 1 "duckduckgo" "http://localhost:8080"
      = [{ url := "", title := "no image key", source := "s",
           thumbnail := "http://img.example/t.jpg", width := 10, height := 10,
           author := "DuckDuckGo", query := some "cats",
           searchEngine := some "duckduckgo" }] ∧
    (processQueryImages c2Env "cats" 1 "duckduckgo" "http://localhost:8080").all
        (fun r => r.url ≠ "") = false := by
  constructor <;> decide

/-- Witness instantiating the amended C2 at the concrete c2Env aggregate call. -/
theorem processQueryImages_stamped_witness :
    ({ url := "", title := "no image key", source := "s",
       thumbnail := "http://img.example/t.jpg", width := 10, height := 10,
       author := "DuckDuckGo", query := some "cats",
       searchEngine := some "duckduckgo" } : ImageRecord).query = some "cats" ∧
    ({ url := "", title := "no image key", source := "s",
       thumbnail := "http://img.example/t.jpg", width := 10, height := 10,
       author := "DuckDuckGo", query := some "cats",
       searchEngine := some "duckduckgo" } : ImageRecord).searchEngine
      = some "duckduckgo" := by
  exact processQueryImages_stamped c2Env "cats" 1 "duckduckgo"
    "http://localhost:8080" _ (by decide)

/-! ## URL-extraction side-channel

extract_urls_from_text (src/image_utils.py 861-863) is embedded from its
regex `https?://[^\s<>"{}|\\^`\[\]]+` via a left-to-right maximal-munch
scanner (findall semantics; `\s` is modelled by its ASCII members).
search_images_from_urls is only a compatibility stub returning [] in
src/image_utils.py (line 865), so the page-fetching extractor itself is
modelled from the spec, section 4.5. -/

/-- Characters excluded from a URL body by the regex character class
(ASCII whitespace, angle brackets, quote, braces, pipe, backslash, caret,
backtick, square brackets). -/
def urlStopChar (c : Char) : Bool :=
  c = ' ' || c = '\t' || c = '\n' || c = '\r' || c = '\x0b' || c = '\x0c' ||
  c = '<' || c = '>' || c = '\"' || c = '\x7b' || c = '\x7d' || c = '|' ||
  c = '\\' || c = '^' || c = '\x60' || c = '[' || c = ']'

/-- Left-to-right scan for non-overlapping matches of the URL regex: at each
position try the scheme "https://" then "http://" (greedy optional `s`),
require at least one body character, and resume after the match. -/
def extract_urls_aux : List Char → List String
  | [] => []
  | c :: rest =>
    if matchesAt "https://".data (c :: rest) then
      let after := (c :: rest).drop 8
      let body := after.takeWhile (fun ch => !urlStopChar ch)
      if body = [] then extract_urls_aux rest
      else
        String.mk ("https://".data ++ body) :: extract_urls_aux (after.drop body.length)
    else if matchesAt "http://".data (c :: rest) then
      let after := (c :: rest).drop 7
      let body := after.takeWhile (fun ch => !urlStopChar ch)
      if body = [] then extract_urls_aux rest
      else
        String.mk ("http://".data ++ body) :: extract_urls_aux (after.drop body.length)
    else extract_urls_aux rest
termination_by l => l.length
decreasing_by
  all_goals simp [List.length_drop]
  all_goals omega

/-- extract_urls_from_text (src/image_utils.py 861-863). -/
def extract_urls_from_text (text : String) : List String :=
  extract_urls_aux text.data

/-- An `<img>` element of a fetched page, with its advertised dimensions
(none = no dimension metadata) and its already-resolved absolute source URL. -/
structure PageImg where
  src : String
  width : Option Nat
  height : Option Nat
deriving DecidableEq

/-- A successfully fetched page, abstracted to its img elements. -/
structure Page where
  imgs : List PageImg
deriving DecidableEq

/-- An image is skipped when an advertised dimension is below 100 pixels;
absent metadata is not disqualifying. -/
def imgTooSmall (im : PageImg) : Bool :=
  (match im.width with | some w => decide (w < 100) | none => false) ||
  (match im.height with | some h => decide (h < 100) | none => false)

/-- Modelled from the spec: the per-URL extraction of section 4.5 — fetch the
page via the resilient HTTP client (oracle `fetchPage`, none = fetch failure,
which contributes zero records) and keep up to max_images_per_url img sources
whose advertised dimensions are not below 100 pixels.  The concrete
implementation is missing from src/: search_images_from_urls there is a
compatibility stub returning []. -/
def urlPageRecords (fetchPage : String → Option Page) (max_images_per_url : Nat)
    (u : String) : List ImageRecord :=
  match fetchPage u with
  | none => []
  | some page =>
    ((page.imgs.filter fun im => !imgTooSmall im).take max_images_per_url).map
      fun im =>
        { url := im.src, title := "", source := u, thumbnail := im.src,
          width := im.width.getD 0, height := im.height.getD 0, author := u }

/-- Modelled from the spec: search_images_from_urls — extract the literal
http(s) URLs of the paragraph, process at most the first 3 in order of
appearance, and append each page's records. -/
def search_images_from_urls (fetchPage : String → Option Page) (text : String)
    (max_images_per_url : Nat) : List ImageRecord :=
  (((extract_urls_from_text text).take 3).map
      (urlPageRecords fetchPage max_images_per_url)).flatten

/-- C6 (confirmed against the spec model): the side-channel processes at most
the first 3 extracted URLs in order of appearance, each successfully fetched
page contributes at most max_images_per_url records, and every record comes
from a page img whose advertised dimensions are not below 100 pixels. -/
theorem search_images_from_urls_spec (fetchPage : String → Option Page)
    (text : String) (max_images_per_url : Nat) :
    (search_images_from_urls fetchPage text max_images_per_url
       = (((extract_urls_from_text text).take 3).map
            (urlPageRecords fetchPage max_images_per_url)).flatten) ∧
    ((extract_urls_from_text text).take 3).length ≤ 3 ∧
    (∀ u, (urlPageRecords fetchPage max_images_per_url u).length
            ≤ max_images_per_url) ∧
    (∀ u r, r ∈ urlPageRecords fetchPage max_images_per_url u →
       ∃ page, fetchPage u = some page ∧
         ∃ im, im ∈ page.imgs ∧ imgTooSmall im = false ∧ r.url = im.src) := by
  refine ⟨rfl, ?_, ?_, ?_⟩
  · simp [List.length_take]
  · intro u
    rw [urlPageRecords]
    cases fetchPage u with
    | none => simp
    | some page => simp [List.length_take]
  · intro u r hr
    rw [urlPageRecords] at hr
    cases hp : fetchPage u with
    | none =>
      rw [hp] at hr
      exact absurd hr (by simp)
    | some page =>
      rw [hp] at hr
      refine ⟨page, rfl, ?_⟩
      simp only [List.mem_map] at hr
      obtain ⟨im, him, rfl⟩ := hr
      have him2 := List.mem_of_mem_take him
      rw [List.mem_filter] at him2
      exact ⟨im, him2.1, by simpa using him2.2, rfl⟩

/-- Page oracle for the C6 witness: one page with one large and one small img. -/
def c6Fetch : String → Option Page :=
  fun u =>
    if u = "http://site.example/page" then
      some { imgs := [ { src := "http://site.example/big.jpg",
                         width := some 640, height := some 480 },
                       { src := "http://site.example/small.jpg",
                         width := some 32, height := some 32 } ] }
    else none

/-- Witness instantiating C6 on a concrete paragraph and page: the record of
the large image traces back to a page img at least 100 pixels in each
advertised dimension. -/
theorem search_images_from_urls_spec_witness :
    ∃ page, c6Fetch "http://site.example/page" = some page ∧
      ∃ im, im ∈ page.imgs ∧ imgTooSmall im = false ∧
        ({ url := "http://site.example/big.jpg", title := "",
           source := "http://site.example/page",
           thumbnail := "http://site.example/big.jpg",
           width := 640, height := 480,
           author := "http://site.example/page" } : ImageRecord).url = im.src := by
  exact (search_images_from_urls_spec c6Fetch
      "see http://site.example/page for photos" 2).2.2.2
    "http://site.example/page" _ (by decide)
